import Mathlib

/-!
Shallow embedding of `index.js` from AstroDigital/example-quick-start.

The source is a single-file Node.js program: a reconciliation loop
(search → status check → conditional publish → poll-until-ready → result
caching) over the Astro Digital v1 API.  HTTP calls are modelled by an
explicit `HttpResult` value handed to each request's callback; the module
global `latestImage` (the Result Cache) is threaded as an explicit
`Option String`; timers (`setTimeout`) and `publishScene` calls are
recorded as effect lists; `console.error` / `console.info` logging is
recorded in booleans and `Option String` fields.  A JavaScript exception
(e.g. a `TypeError` from reading a property of `undefined`) is modelled by
`Except.error`.
-/

set_option autoImplicit false

namespace AstroQuickStart

/-- The two configured inputs used by the status/publish path in `index.js`
(`var method = 'trueColor'; var email = '';`). -/
structure Config where
  methodCode : String
  email : String
  deriving DecidableEq, Repr

/-- `var recheckInterval = 10 * 60 * 1000;` (milliseconds). -/
def recheckInterval : Nat := 10 * 60 * 1000

/-- `var searchInterval = 24 * 60 * 60 * 1000;` (milliseconds). -/
def searchInterval : Nat := 24 * 60 * 60 * 1000

/-- The message of the JavaScript `TypeError` thrown when a property of
`undefined` is read (e.g. `data.results[i]` past the end of the array). -/
def jsTypeError : String := "TypeError: cannot read properties of undefined"

/-- Outcome of one `request(...)` call as seen by its callback: either a
truthy `err` (network failure), or a response with a status code and an
already-parsed body. -/
inductive HttpResult (β : Type) where
  | netErr (e : String)
  | resp (statusCode : Nat) (body : β)
  deriving DecidableEq, Repr

/-- `process_method` object of one entry of the `/scenes` listing. -/
structure ProcessMethod where
  code : String
  deriving DecidableEq, Repr

/-- One entry of `data.results` in the `/scenes` response. -/
structure SceneRecord where
  process_method : ProcessMethod
  ready : Bool
  map_id : String
  deriving DecidableEq, Repr

/-- Parsed body of the `/scenes?sceneID=...` response: the provider-reported
`count` plus the `results` array. -/
structure ScenesBody where
  count : Nat
  results : List SceneRecord
  deriving DecidableEq, Repr

/-- One entry of `data.results` in the `/search` response. -/
structure SearchRecord where
  sceneID : String
  deriving DecidableEq, Repr

/-- Parsed body of the `/search` response. -/
structure SearchBody where
  results : List SearchRecord
  deriving DecidableEq, Repr

/-- The test `scene.process_method.code === method` of the scan loop in
`getSceneStatus`. -/
def matchesMethod (m : String) (r : SceneRecord) : Bool :=
  r.process_method.code == m

/-- The `for (var i = 0; i < numberOfScenes; i++)` scan of `getSceneStatus`,
with `fuel = numberOfScenes - i` remaining iterations.  Reading
`data.results[i]` past the end of the array yields `undefined`, and the
subsequent `scene.process_method` access throws: modelled by
`Except.error`.  Returns the first entry whose method code matches, if the
loop finds one. -/
def sceneScan (m : String) (results : List SceneRecord) :
    Nat → Nat → Except String (Option SceneRecord)
  | _, 0 => Except.ok none
  | i, fuel + 1 =>
    match results[i]? with
    | none => Except.error jsTypeError
    | some scene =>
      if matchesMethod m scene then Except.ok (some scene)
      else sceneScan m results (i + 1) fuel

/-- The four arguments `(err, status, mapID, sceneID)` that `getSceneStatus`
passes to its callback; `none` models JavaScript `null`/`undefined`. -/
structure StatusCbArgs where
  err : Option String
  status : Option String
  mapID : Option String
  sceneID : Option String
  deriving DecidableEq, Repr

/-- `getSceneStatus(sceneID, callback)`: what the callback receives for a
given HTTP outcome.  On a truthy `err` or a non-200 status code the source
runs `callback(err, null, null, null)` — note that on a non-200 response
without a network error, `err` is `null`.  Otherwise the scan over
`data.count` entries decides READY / REQUESTED / NOT_YET_REQUESTED. -/
def getSceneStatus (m sceneID : String) (http : HttpResult ScenesBody) :
    Except String StatusCbArgs :=
  match http with
  | HttpResult.netErr e => Except.ok ⟨some e, none, none, none⟩
  | HttpResult.resp code body =>
    if code ≠ 200 then Except.ok ⟨none, none, none, none⟩
    else
      match sceneScan m body.results 0 body.count with
      | Except.error e => Except.error e
      | Except.ok (some scene) =>
        if scene.ready then
          Except.ok ⟨none, some "READY", some scene.map_id, some sceneID⟩
        else
          Except.ok ⟨none, some "REQUESTED", none, some sceneID⟩
      | Except.ok none =>
        Except.ok ⟨none, some "NOT_YET_REQUESTED", none, some sceneID⟩

/-- The scan over a well-formed prefix equals `List.find?` over the first
`fuel` entries after position `i`. -/
theorem sceneScan_eq_find (m : String) (l : List SceneRecord) :
    ∀ (fuel i : Nat), i + fuel ≤ l.length →
      sceneScan m l i fuel =
        Except.ok (((l.drop i).take fuel).find? (matchesMethod m))
  | 0, i, _ => by simp [sceneScan]
  | fuel + 1, i, h => by
    have hi : i < l.length := by omega
    have hdrop : l.drop i = l[i] :: l.drop (i + 1) :=
      List.drop_eq_getElem_cons hi
    rw [sceneScan, List.getElem?_eq_getElem hi, hdrop, List.take_succ_cons,
      List.find?_cons]
    dsimp only
    cases hm : matchesMethod m l[i]
    · rw [if_neg (by simp [hm]), sceneScan_eq_find m l fuel (i + 1) (by omega)]
    · rw [if_pos rfl]

/-- Specialisation: scanning `count` entries from the start is `find?` over
`results.take count`. -/
theorem sceneScan_take (m : String) (body : ScenesBody)
    (h : body.count ≤ body.results.length) :
    sceneScan m body.results 0 body.count =
      Except.ok ((body.results.take body.count).find? (matchesMethod m)) := by
  have := sceneScan_eq_find m body.results body.count 0 (by omega)
  simpa using this

/-- Specialisation to `count = length`: the scan is `find?` over the whole
array. -/
theorem sceneScan_full (m : String) (body : ScenesBody)
    (h : body.count = body.results.length) :
    sceneScan m body.results 0 body.count =
      Except.ok (body.results.find? (matchesMethod m)) := by
  rw [sceneScan_take m body (le_of_eq h), h, List.take_length]

/-- The form data posted by `publishScene`:
`{ satellite: 'l8', sceneID: sceneID, email: email, process: method }`. -/
structure PublishForm where
  satellite : String
  sceneID : Option String
  email : String
  process : String
  deriving DecidableEq, Repr

/-- Builds the form data of `publishScene` for a scene identifier. -/
def publishForm (cfg : Config) (sceneID : Option String) : PublishForm :=
  ⟨"l8", sceneID, cfg.email, cfg.methodCode⟩

/-- What `publishScene`'s POST callback logs: `console.error` on a truthy
`err` or a non-200 status code, `console.info` on success. -/
structure PublishOutcome where
  errorLogged : Bool
  successLogged : Bool
  deriving DecidableEq, Repr

/-- The `request.post` callback inside `publishScene`: it only logs, never
calls back into the loop and never throws (its body reads no property of a
possibly-`undefined` value), hence always `Except.ok`. -/
def publishScene (cfg : Config) (sceneID : Option String)
    (http : HttpResult String) : PublishForm × Except String PublishOutcome :=
  (publishForm cfg sceneID,
    match http with
    | HttpResult.netErr _ => Except.ok ⟨true, false⟩
    | HttpResult.resp code _ =>
      if code ≠ 200 then Except.ok ⟨true, false⟩ else Except.ok ⟨false, true⟩)

/-- One armed `setTimeout` re-check: which scene identifier the timer's
closure will pass to `getSceneStatus`, and the delay. -/
structure Recheck where
  target : Option String
  delay : Nat
  deriving DecidableEq, Repr

/-- The effects of one `handleSceneStatus` call: the new value of the
module-global `latestImage`, the `publishScene` calls made, the timers
armed, and whether `console.error('Unhandled scene status')` ran. -/
structure HandleResult where
  latestImage : Option String
  publishCalls : List PublishForm
  rechecks : List Recheck
  unhandledLogged : Bool
  deriving DecidableEq, Repr

/-- `handleSceneStatus(sceneID, status, mapID)` against a current
`latestImage`: the `switch (status)` of the source.  `READY` writes
`latestImage = mapID`; `REQUESTED` arms one re-check; `NOT_YET_REQUESTED`
calls `publishScene(sceneID)` and arms one re-check; any other value hits
the `default` branch, which only logs. -/
def handleSceneStatus (cfg : Config) (latest : Option String)
    (sceneID : Option String) (status : Option String)
    (mapID : Option String) : HandleResult :=
  if status = some "READY" then
    ⟨mapID, [], [], false⟩
  else if status = some "REQUESTED" then
    ⟨latest, [], [⟨sceneID, recheckInterval⟩], false⟩
  else if status = some "NOT_YET_REQUESTED" then
    ⟨latest, [publishForm cfg sceneID], [⟨sceneID, recheckInterval⟩], false⟩
  else
    ⟨latest, [], [], true⟩

/-- The effects of one delivery of a status-callback invocation: like
`HandleResult`, plus the argument of `console.error(err)` when the error
branch ran. -/
structure CycleResult where
  latestImage : Option String
  publishCalls : List PublishForm
  rechecks : List Recheck
  errLogged : Option String
  unhandledLogged : Bool
  deriving DecidableEq, Repr

/-- `statusCallback(err, status, mapID, sceneID)`: `if (err)` logs and
returns; otherwise it calls `handleSceneStatus(sceneID, status, mapID)`. -/
def statusCallback (cfg : Config) (latest : Option String)
    (a : StatusCbArgs) : CycleResult :=
  match a.err with
  | some e => ⟨latest, [], [], some e, false⟩
  | none =>
    let h := handleSceneStatus cfg latest a.sceneID a.status a.mapID
    ⟨h.latestImage, h.publishCalls, h.rechecks, none, h.unhandledLogged⟩

/-- The two shapes in which `runSearchRequest` invokes its callback:
`callback(err, null)` with a truthy error, or `callback(null, sceneID)`. -/
inductive SearchOutcome where
  | fail (e : String)
  | found (sceneID : String)
  deriving DecidableEq, Repr

/-- The fallback error message of `runSearchRequest` for a non-success
response. -/
def noMatchMessage : String :=
  "Looks like we were unable to find any matches for your search."

/-- `runSearchRequest(callback)`: on a truthy `err` the original error is
passed on; on a non-200 response `err` is falsy and is replaced by the
no-match message; on a 200 response the source reads
`data.results[0].sceneID.trim()` — if `results` is empty, `results[0]` is
`undefined` and reading `.sceneID` throws (`Except.error`). -/
def runSearchRequest (http : HttpResult SearchBody) :
    Except String SearchOutcome :=
  match http with
  | HttpResult.netErr e => Except.ok (SearchOutcome.fail e)
  | HttpResult.resp code body =>
    if code ≠ 200 then Except.ok (SearchOutcome.fail noMatchMessage)
    else
      match body.results.head? with
      | none => Except.error jsTypeError
      | some r => Except.ok (SearchOutcome.found r.sceneID.trim)

/-- `handleSearchResult(err, sceneID)`: `if (err)` logs and returns;
otherwise it runs `getSceneStatus(sceneID, ...)` whose inner callback
`(err, status, mapID)` logs on a truthy error and otherwise calls
`handleSceneStatus` with the closure's `sceneID`. -/
def handleSearchResult (cfg : Config) (latest : Option String)
    (so : SearchOutcome) (statusHttp : HttpResult ScenesBody) :
    Except String CycleResult :=
  match so with
  | SearchOutcome.fail e => Except.ok ⟨latest, [], [], some e, false⟩
  | SearchOutcome.found sceneID =>
    match getSceneStatus cfg.methodCode sceneID statusHttp with
    | Except.error e => Except.error e
    | Except.ok a =>
      match a.err with
      | some e => Except.ok ⟨latest, [], [], some e, false⟩
      | none =>
        let h := handleSceneStatus cfg latest (some sceneID) a.status a.mapID
        Except.ok ⟨h.latestImage, h.publishCalls, h.rechecks, none,
          h.unhandledLogged⟩

/-- One full search cycle as started by the driver:
`runSearchRequest(handleSearchResult)`, with `statusHttp` the provider's
answer to the status check that follows a successful search. -/
def searchCycle (cfg : Config) (latest : Option String)
    (searchHttp : HttpResult SearchBody) (statusHttp : HttpResult ScenesBody) :
    Except String CycleResult :=
  match runSearchRequest searchHttp with
  | Except.error e => Except.error e
  | Except.ok so => handleSearchResult cfg latest so statusHttp

/-- The value of `latestImage` after one `getSceneStatus(sceneID,
statusCallback)` round against a fixed provider answer `http`.  A thrown
exception aborts the callback before any assignment, leaving `latestImage`
unchanged. -/
def checkOnce (cfg : Config) (sceneID : String) (http : HttpResult ScenesBody)
    (latest : Option String) : Option String :=
  match getSceneStatus cfg.methodCode sceneID http with
  | Except.error _ => latest
  | Except.ok a => (statusCallback cfg latest a).latestImage

/-- A polling chain for one scene identifier: each element of `https` is the
provider's answer to one `getSceneStatus(sceneID, statusCallback)` round.
The next round runs only if the previous one armed a re-check timer; a
thrown exception kills the chain.  Returns the per-round effects, in
order. -/
def chainSteps (cfg : Config) (sceneID : String) :
    Option String → List (HttpResult ScenesBody) → List CycleResult
  | _, [] => []
  | latest, http :: rest =>
    match getSceneStatus cfg.methodCode sceneID http with
    | Except.error _ => []
    | Except.ok a =>
      let c := statusCallback cfg latest a
      if c.rechecks = [] then [c]
      else c :: chainSteps cfg sceneID c.latestImage rest

/-- The `latestImage` written by one status-callback delivery: the delivered
`mapID` when the error slot is empty and the status is `READY`, the old
value otherwise. -/
theorem statusCallback_latestImage (cfg : Config) (latest : Option String)
    (a : StatusCbArgs) :
    (statusCallback cfg latest a).latestImage =
      if a.err = none ∧ a.status = some "READY" then a.mapID else latest := by
  obtain ⟨err, st, mid, scid⟩ := a
  cases err with
  | some e => simp [statusCallback]
  | none =>
    simp only [statusCallback, handleSceneStatus]
    by_cases h1 : st = some "READY"
    · simp [h1]
    · rw [if_neg h1]
      split_ifs <;> simp_all

/-- Claim C1: for every well-formed provider response to a status check (a
success response whose `count` matches the `results` array), `getSceneStatus`
hands its callback exactly one of the three statuses: `READY` with the
result reference when the first entry whose processing-method code equals
the configured method is marked complete, `REQUESTED` when that entry is not
complete, and `NOT_YET_REQUESTED` when no entry matches; no other output is
possible. -/
theorem getStatus_trichotomy (m sceneID : String) (body : ScenesBody)
    (hwf : body.count = body.results.length) :
    ∃ a : StatusCbArgs,
      getSceneStatus m sceneID (HttpResult.resp 200 body) = Except.ok a ∧
      a.err = none ∧ a.sceneID = some sceneID ∧
      ((∃ s, body.results.find? (matchesMethod m) = some s ∧ s.ready = true ∧
          a.status = some "READY" ∧ a.mapID = some s.map_id) ∨
       (∃ s, body.results.find? (matchesMethod m) = some s ∧ s.ready = false ∧
          a.status = some "REQUESTED" ∧ a.mapID = none) ∨
       (body.results.find? (matchesMethod m) = none ∧
          a.status = some "NOT_YET_REQUESTED" ∧ a.mapID = none)) ∧
      (a.status = some "READY" ∨ a.status = some "REQUESTED" ∨
        a.status = some "NOT_YET_REQUESTED") := by
  have hscan := sceneScan_full m body hwf
  cases hfind : body.results.find? (matchesMethod m) with
  | none =>
    refine ⟨⟨none, some "NOT_YET_REQUESTED", none, some sceneID⟩, ?_, rfl, rfl,
      Or.inr (Or.inr ⟨rfl, rfl, rfl⟩), Or.inr (Or.inr rfl)⟩
    simp [getSceneStatus, hscan, hfind]
  | some s =>
    cases hr : s.ready with
    | true =>
      refine ⟨⟨none, some "READY", some s.map_id, some sceneID⟩, ?_, rfl, rfl,
        Or.inl ⟨s, rfl, hr, rfl, rfl⟩, Or.inl rfl⟩
      simp [getSceneStatus, hscan, hfind, hr]
    | false =>
      refine ⟨⟨none, some "REQUESTED", none, some sceneID⟩, ?_, rfl, rfl,
        Or.inr (Or.inl ⟨s, rfl, hr, rfl, rfl⟩), Or.inr (Or.inl rfl)⟩
      simp [getSceneStatus, hscan, hfind, hr]

/-- Witness for C1 at a concrete ready listing. -/
theorem getStatus_trichotomy_witness :
    ∃ a : StatusCbArgs,
      getSceneStatus "trueColor" "S" (HttpResult.resp 200
          ⟨1, [⟨⟨"trueColor"⟩, true, "abc123"⟩]⟩) = Except.ok a ∧
      (a.status = some "READY" ∨ a.status = some "REQUESTED" ∨
        a.status = some "NOT_YET_REQUESTED") := by
  obtain ⟨a, h1, -, -, -, h5⟩ := getStatus_trichotomy "trueColor" "S"
    ⟨1, [⟨⟨"trueColor"⟩, true, "abc123"⟩]⟩ rfl
  exact ⟨a, h1, h5⟩

/-- Claim C4: handling a delivered status mutates `latestImage` only on the
`READY` branch, where it writes the delivered result reference; every other
status value, and the error branch of the callback, leaves it unchanged. -/
theorem handleStatus_latest_only_ready (cfg : Config)
    (latest sceneID status mapID : Option String) :
    (status ≠ some "READY" →
      (handleSceneStatus cfg latest sceneID status mapID).latestImage =
        latest) ∧
    (status = some "READY" →
      (handleSceneStatus cfg latest sceneID status mapID).latestImage =
        mapID) ∧
    (∀ e : String,
      (statusCallback cfg latest ⟨some e, status, mapID, sceneID⟩).latestImage
        = latest) := by
  refine ⟨?_, ?_, fun e => rfl⟩
  · intro h
    rw [handleSceneStatus, if_neg h]
    split_ifs <;> rfl
  · intro h
    rw [handleSceneStatus, if_pos h]

/-- Witness for C4: a `REQUESTED` delivery leaves the cached image alone. -/
theorem handleStatus_latest_only_ready_witness :
    (handleSceneStatus ⟨"trueColor", ""⟩ (some "old") (some "S")
        (some "REQUESTED") none).latestImage = some "old" :=
  (handleStatus_latest_only_ready ⟨"trueColor", ""⟩ (some "old") (some "S")
    (some "REQUESTED") none).1 (by decide)

/-- Claim C6: a status outside `{READY, REQUESTED, NOT_YET_REQUESTED}` hits
the `default` branch: it is logged, arms no re-check, makes no publish call,
leaves `latestImage` unchanged, and the polling chain for that identifier
stops after that round. -/
theorem handleStatus_unknown (cfg : Config)
    (latest sceneID status mapID : Option String)
    (h1 : status ≠ some "READY") (h2 : status ≠ some "REQUESTED")
    (h3 : status ≠ some "NOT_YET_REQUESTED") :
    handleSceneStatus cfg latest sceneID status mapID =
      ⟨latest, [], [], true⟩ ∧
    (∀ (sid : String) (http : HttpResult ScenesBody)
        (rest : List (HttpResult ScenesBody)) (a : StatusCbArgs),
      getSceneStatus cfg.methodCode sid http = Except.ok a →
      a.err = none → a.status = status →
      chainSteps cfg sid latest (http :: rest) =
        [⟨latest, [], [], none, true⟩]) := by
  have hdef : handleSceneStatus cfg latest sceneID status mapID =
      ⟨latest, [], [], true⟩ := by
    rw [handleSceneStatus, if_neg h1, if_neg h2, if_neg h3]
  refine ⟨hdef, fun sid http rest a hget herr hst => ?_⟩
  have hcb : statusCallback cfg latest a = ⟨latest, [], [], none, true⟩ := by
    obtain ⟨err, st, mid, scid⟩ := a
    cases herr
    cases hst
    simp only [statusCallback, handleSceneStatus, if_neg h1, if_neg h2,
      if_neg h3]
  simp [chainSteps, hget, hcb]

/-- Witness for C6 at status `"BOGUS"`. -/
theorem handleStatus_unknown_witness :
    handleSceneStatus ⟨"trueColor", ""⟩ (some "old") (some "S")
        (some "BOGUS") none = ⟨some "old", [], [], true⟩ :=
  (handleStatus_unknown ⟨"trueColor", ""⟩ (some "old") (some "S")
    (some "BOGUS") none (by decide) (by decide) (by decide)).1

/-- Claim C5: `REQUESTED` and `NOT_YET_REQUESTED` each arm exactly one
re-check timer with delay `recheckInterval`, `READY` arms none, and a
polling chain that observes `READY` performs no further round: the chain
over any remaining provider answers stops right there. -/
theorem handleStatus_scheduling (cfg : Config)
    (latest sceneID mapID : Option String) :
    (handleSceneStatus cfg latest sceneID (some "REQUESTED") mapID).rechecks =
      [⟨sceneID, recheckInterval⟩] ∧
    (handleSceneStatus cfg latest sceneID
        (some "NOT_YET_REQUESTED") mapID).rechecks =
      [⟨sceneID, recheckInterval⟩] ∧
    (handleSceneStatus cfg latest sceneID (some "READY") mapID).rechecks =
      [] ∧
    (∀ (sid : String) (http : HttpResult ScenesBody)
        (rest : List (HttpResult ScenesBody)) (a : StatusCbArgs),
      getSceneStatus cfg.methodCode sid http = Except.ok a →
      a.status = some "READY" →
      chainSteps cfg sid latest (http :: rest) =
        [statusCallback cfg latest a]) := by
  refine ⟨by rw [handleSceneStatus]; rfl, by rw [handleSceneStatus]; rfl,
    by rw [handleSceneStatus]; rfl, fun sid http rest a hget hst => ?_⟩
  have hstop : (statusCallback cfg latest a).rechecks = [] := by
    obtain ⟨err, st, mid, scid⟩ := a
    cases hst
    cases err with
    | some e => rfl
    | none => rw [statusCallback]; simp [handleSceneStatus]
  simp [chainSteps, hget, hstop]

/-- Witness for C5: a chain that sees `READY` on its first round consumes no
further provider answer. -/
theorem handleStatus_scheduling_witness :
    chainSteps ⟨"trueColor", ""⟩ "S" none
        [HttpResult.resp 200 ⟨1, [⟨⟨"trueColor"⟩, true, "abc123"⟩]⟩,
          HttpResult.netErr "ignored"] =
      [⟨some "abc123", [], [], none, false⟩] := by
  have h := (handleStatus_scheduling ⟨"trueColor", ""⟩ none (some "S")
      none).2.2.2 "S"
      (HttpResult.resp 200 ⟨1, [⟨⟨"trueColor"⟩, true, "abc123"⟩]⟩)
      [HttpResult.netErr "ignored"]
      ⟨none, some "READY", some "abc123", some "S"⟩ rfl rfl
  rw [h]
  rfl

/-- Claim C7: round-trip — the `NOT_YET_REQUESTED` branch publishes the
scene under the configured method and arms a re-check, and a subsequent
status response whose matching entry is complete with some result reference
leaves exactly that reference in the cache. -/
theorem publish_ready_roundtrip (cfg : Config) (latest : Option String)
    (sid : String) (body : ScenesBody) (s : SceneRecord)
    (hwf : body.count = body.results.length)
    (hfind : body.results.find? (matchesMethod cfg.methodCode) = some s)
    (hready : s.ready = true) :
    (handleSceneStatus cfg latest (some sid)
        (some "NOT_YET_REQUESTED") none).publishCalls =
      [⟨"l8", some sid, cfg.email, cfg.methodCode⟩] ∧
    (handleSceneStatus cfg latest (some sid)
        (some "NOT_YET_REQUESTED") none).rechecks =
      [⟨some sid, recheckInterval⟩] ∧
    getSceneStatus cfg.methodCode sid (HttpResult.resp 200 body) =
      Except.ok ⟨none, some "READY", some s.map_id, some sid⟩ ∧
    (statusCallback cfg
        (handleSceneStatus cfg latest (some sid)
          (some "NOT_YET_REQUESTED") none).latestImage
        ⟨none, some "READY", some s.map_id, some sid⟩).latestImage =
      some s.map_id := by
  refine ⟨by rw [handleSceneStatus]; rfl, by rw [handleSceneStatus]; rfl,
    ?_, by rw [statusCallback]; simp [handleSceneStatus]⟩
  have hscan := sceneScan_full cfg.methodCode body hwf
  simp [getSceneStatus, hscan, hfind, hready]

/-- Witness for C7: Scenario A — scene `LC80100102015050LGN00`, method
`trueColor`, ready entry with `map_id = "abc123"` ends with the cache
holding `"abc123"`. -/
theorem publish_ready_roundtrip_witness :
    (handleSceneStatus ⟨"trueColor", ""⟩ none (some "LC80100102015050LGN00")
        (some "NOT_YET_REQUESTED") none).publishCalls =
      [⟨"l8", some "LC80100102015050LGN00", "", "trueColor"⟩] ∧
    (statusCallback ⟨"trueColor", ""⟩
        (handleSceneStatus ⟨"trueColor", ""⟩ none
          (some "LC80100102015050LGN00")
          (some "NOT_YET_REQUESTED") none).latestImage
        ⟨none, some "READY", some "abc123",
          some "LC80100102015050LGN00"⟩).latestImage = some "abc123" := by
  have h := publish_ready_roundtrip ⟨"trueColor", ""⟩ none
    "LC80100102015050LGN00" ⟨1, [⟨⟨"trueColor"⟩, true, "abc123"⟩]⟩
    ⟨⟨"trueColor"⟩, true, "abc123"⟩ rfl (by decide) rfl
  exact ⟨h.1, h.2.2.2⟩

/-- The `NOT_YET_REQUESTED` branch paired with the outcome of the publish
request it fires: the reconciler's own effects are computed without reading
the publish response. -/
def notYetRequestedStep (cfg : Config) (latest : Option String)
    (sceneID : Option String) (pubHttp : HttpResult String) :
    HandleResult × (PublishForm × Except String PublishOutcome) :=
  (handleSceneStatus cfg latest sceneID (some "NOT_YET_REQUESTED") none,
    publishScene cfg sceneID pubHttp)

/-- Claim C8: the publish request is fire-and-forget — its callback never
throws (always `Except.ok`), logs an error exactly on a network failure or
non-200 response, logs success on 200, and the reconciler's effects in the
`NOT_YET_REQUESTED` step are identical whatever the publish outcome is. -/
theorem publish_fire_and_forget (cfg : Config) (sid : Option String)
    (http : HttpResult String) :
    (∃ o : PublishOutcome,
      (publishScene cfg sid http).2 = Except.ok o) ∧
    (∀ e, http = HttpResult.netErr e →
      (publishScene cfg sid http).2 = Except.ok ⟨true, false⟩) ∧
    (∀ (code : Nat) (b : String), http = HttpResult.resp code b →
      code ≠ 200 →
      (publishScene cfg sid http).2 = Except.ok ⟨true, false⟩) ∧
    (∀ b : String, http = HttpResult.resp 200 b →
      (publishScene cfg sid http).2 = Except.ok ⟨false, true⟩) ∧
    (∀ (latest : Option String) (other : HttpResult String),
      (notYetRequestedStep cfg latest sid http).1 =
        (notYetRequestedStep cfg latest sid other).1) := by
  refine ⟨?_, ?_, ?_, ?_, fun latest other => rfl⟩
  · cases http with
    | netErr e => exact ⟨⟨true, false⟩, rfl⟩
    | resp code b =>
      by_cases hc : code = 200
      · subst hc; exact ⟨⟨false, true⟩, by simp [publishScene]⟩
      · exact ⟨⟨true, false⟩, by simp [publishScene, hc]⟩
  · rintro e rfl; rfl
  · rintro code b rfl hc
    simp [publishScene, hc]
  · rintro b rfl
    simp [publishScene]

/-- Witness for C8: a 500 publish response is only logged. -/
theorem publish_fire_and_forget_witness :
    (publishScene ⟨"trueColor", ""⟩ (some "S")
        (HttpResult.resp 500 "oops")).2 = Except.ok ⟨true, false⟩ :=
  (publish_fire_and_forget ⟨"trueColor", ""⟩ (some "S")
    (HttpResult.resp 500 "oops")).2.2.1 500 "oops" rfl (by decide)

/-- One status-check round is idempotent on `latestImage` when the provider
answer is fixed. -/
theorem checkOnce_idem (cfg : Config) (sid : String)
    (http : HttpResult ScenesBody) (latest : Option String) :
    checkOnce cfg sid http (checkOnce cfg sid http latest) =
      checkOnce cfg sid http latest := by
  unfold checkOnce
  cases hget : getSceneStatus cfg.methodCode sid http with
  | error e => rfl
  | ok a =>
    dsimp only
    rw [statusCallback_latestImage, statusCallback_latestImage]
    by_cases h : a.err = none ∧ a.status = some "READY"
    · rw [if_pos h, if_pos h]
    · rw [if_neg h]

/-- Claim C9: repeated status checks against an unchanged provider state
never move the Result Cache beyond what a single check does — `n + 1`
iterated rounds leave the same `latestImage` as one round. -/
theorem repeated_checks_idempotent (cfg : Config) (sid : String)
    (http : HttpResult ScenesBody) (latest : Option String) (n : Nat) :
    (checkOnce cfg sid http)^[n + 1] latest =
      checkOnce cfg sid http latest := by
  induction n with
  | zero => rfl
  | succ k ih =>
    rw [Function.iterate_succ_apply', ih, checkOnce_idem]

/-- Counterexample to C2 as stated: a success (200) search response with
zero results does not produce the no-match failure — the source throws a
`TypeError` reading `data.results[0].sceneID`, so no error callback runs. -/
theorem search_zero_results_throws :
    runSearchRequest (HttpResult.resp 200 ⟨[]⟩) = Except.error jsTypeError ∧
    runSearchRequest (HttpResult.resp 200 ⟨[]⟩) ≠
      Except.ok (SearchOutcome.fail noMatchMessage) :=
  ⟨rfl, fun h => Except.noConfusion h⟩

/-- Claim C2 (amended): the search fails with the no-match message exactly
on a non-success response without a network error, and with the transport
error on network failure; a success response with zero results instead
throws while reading the first result, so the cycle aborts with no error
callback: no cycle effects at all (cache untouched, no publish, no log). -/
theorem search_error_paths (http : HttpResult SearchBody) :
    (∀ e, http = HttpResult.netErr e →
      runSearchRequest http = Except.ok (SearchOutcome.fail e)) ∧
    (∀ (code : Nat) (body : SearchBody), http = HttpResult.resp code body →
      code ≠ 200 →
      runSearchRequest http = Except.ok (SearchOutcome.fail noMatchMessage)) ∧
    (∀ body : SearchBody, http = HttpResult.resp 200 body →
      body.results = [] →
      runSearchRequest http = Except.error jsTypeError ∧
      ∀ (cfg : Config) (latest : Option String)
          (statusHttp : HttpResult ScenesBody),
        searchCycle cfg latest http statusHttp =
          Except.error jsTypeError) := by
  refine ⟨?_, ?_, ?_⟩
  · rintro e rfl; rfl
  · rintro code body rfl hc
    simp [runSearchRequest, hc]
  · rintro body rfl hres
    have hrun : runSearchRequest (HttpResult.resp 200 body) =
        Except.error jsTypeError := by
      simp [runSearchRequest, hres]
    exact ⟨hrun, fun cfg latest statusHttp => by
      simp [searchCycle, hrun]⟩

/-- Witness for the amended C2: the three error paths at concrete inputs. -/
theorem search_error_paths_witness :
    runSearchRequest (HttpResult.netErr "ECONNREFUSED") =
      Except.ok (SearchOutcome.fail "ECONNREFUSED") ∧
    runSearchRequest (HttpResult.resp 404 ⟨[]⟩) =
      Except.ok (SearchOutcome.fail noMatchMessage) ∧
    searchCycle ⟨"trueColor", ""⟩ (some "old") (HttpResult.resp 200 ⟨[]⟩)
        (HttpResult.netErr "x") = Except.error jsTypeError :=
  ⟨(search_error_paths (HttpResult.netErr "ECONNREFUSED")).1
      "ECONNREFUSED" rfl,
    (search_error_paths (HttpResult.resp 404 ⟨[]⟩)).2.1 404 ⟨[]⟩ rfl
      (by decide),
    ((search_error_paths (HttpResult.resp 200 ⟨[]⟩)).2.2 ⟨[]⟩ rfl rfl).2
      ⟨"trueColor", ""⟩ (some "old") (HttpResult.netErr "x")⟩

/-- Counterexample to C3 as stated: on a non-success (500) status response
the callback receives a `null` error, so `statusCallback` does not take its
error branch — the failure is not reported upward as an error; it flows
into the state machine as a `null` status and hits the unknown-status
branch. -/
theorem status_non200_not_reported :
    getSceneStatus "trueColor" "LC80100102015050LGN00"
        (HttpResult.resp 500 ⟨0, []⟩) =
      Except.ok ⟨none, none, none, none⟩ ∧
    (statusCallback ⟨"trueColor", ""⟩ (some "old")
        ⟨none, none, none, none⟩).errLogged = none ∧
    (statusCallback ⟨"trueColor", ""⟩ (some "old")
        ⟨none, none, none, none⟩).unhandledLogged = true :=
  ⟨rfl, rfl, rfl⟩

/-- Claim C3 (amended): on a network failure the status check hands its
callback the truthy transport error, which the caller logs and does not
retry (no re-check, no publish, cache untouched); on a non-success response
the callback instead receives `null` for both error and status, which the
caller does not treat as an error — it flows into the state machine's
unknown-status branch, is logged there, and the chain likewise stops. -/
theorem status_failure_paths (cfg : Config) (sid : String)
    (latest : Option String) :
    (∀ e : String,
      getSceneStatus cfg.methodCode sid (HttpResult.netErr e) =
        Except.ok ⟨some e, none, none, none⟩ ∧
      statusCallback cfg latest ⟨some e, none, none, none⟩ =
        ⟨latest, [], [], some e, false⟩) ∧
    (∀ (code : Nat) (body : ScenesBody), code ≠ 200 →
      getSceneStatus cfg.methodCode sid (HttpResult.resp code body) =
        Except.ok ⟨none, none, none, none⟩ ∧
      statusCallback cfg latest ⟨none, none, none, none⟩ =
        ⟨latest, [], [], none, true⟩) := by
  refine ⟨fun e => ⟨rfl, rfl⟩, fun code body hc => ⟨?_, rfl⟩⟩
  simp [getSceneStatus, hc]

/-- Witness for the amended C3 at concrete failures. -/
theorem status_failure_paths_witness :
    statusCallback ⟨"trueColor", ""⟩ (some "old")
        ⟨some "ECONNREFUSED", none, none, none⟩ =
      ⟨some "old", [], [], some "ECONNREFUSED", false⟩ ∧
    getSceneStatus "trueColor" "S" (HttpResult.resp 404 ⟨0, []⟩) =
      Except.ok ⟨none, none, none, none⟩ :=
  ⟨((status_failure_paths ⟨"trueColor", ""⟩ "S" (some "old")).1
      "ECONNREFUSED").2,
    ((status_failure_paths ⟨"trueColor", ""⟩ "S" (some "old")).2 404 ⟨0, []⟩
      (by decide)).1⟩

/-- Claim C10: the scan of `getSceneStatus` is bounded by the
provider-reported `count`, not by the array length — whenever `count` is at
most the array length the scan is safe and the first matching entry among
the first `count` decides the status, but a response whose `count` exceeds
the array length makes the entry access read `undefined` and the call
throws instead of returning a status. -/
theorem getStatus_count_bound (m sid : String) :
    (∀ body : ScenesBody, body.count ≤ body.results.length →
      ∃ a : StatusCbArgs,
        getSceneStatus m sid (HttpResult.resp 200 body) = Except.ok a ∧
        ((∃ s, (body.results.take body.count).find? (matchesMethod m) =
              some s ∧
            ((s.ready = true ∧ a.status = some "READY" ∧
                a.mapID = some s.map_id) ∨
              (s.ready = false ∧ a.status = some "REQUESTED"))) ∨
          ((body.results.take body.count).find? (matchesMethod m) = none ∧
            a.status = some "NOT_YET_REQUESTED"))) ∧
    getSceneStatus m sid (HttpResult.resp 200 ⟨1, []⟩) =
      Except.error jsTypeError := by
  refine ⟨fun body hle => ?_, rfl⟩
  have hscan := sceneScan_take m body hle
  cases hfind : (body.results.take body.count).find? (matchesMethod m) with
  | none =>
    refine ⟨⟨none, some "NOT_YET_REQUESTED", none, some sid⟩, ?_,
      Or.inr ⟨rfl, rfl⟩⟩
    simp [getSceneStatus, hscan, hfind]
  | some s =>
    cases hr : s.ready with
    | true =>
      refine ⟨⟨none, some "READY", some s.map_id, some sid⟩, ?_,
        Or.inl ⟨s, rfl, Or.inl ⟨hr, rfl, rfl⟩⟩⟩
      simp [getSceneStatus, hscan, hfind, hr]
    | false =>
      refine ⟨⟨none, some "REQUESTED", none, some sid⟩, ?_,
        Or.inl ⟨s, rfl, Or.inr ⟨hr, rfl⟩⟩⟩
      simp [getSceneStatus, hscan, hfind, hr]

/-- Witness for C10: a `count` of 1 over a two-entry array scans safely, and
the out-of-bounds case at `count = 1` over an empty array throws. -/
theorem getStatus_count_bound_witness :
    getSceneStatus "trueColor" "S" (HttpResult.resp 200 ⟨1, []⟩) =
      Except.error jsTypeError ∧
    ∃ a : StatusCbArgs,
      getSceneStatus "trueColor" "S" (HttpResult.resp 200
          ⟨1, [⟨⟨"ndvi"⟩, false, "zzz"⟩, ⟨⟨"trueColor"⟩, true, "abc123"⟩]⟩) =
        Except.ok a := by
  obtain ⟨hall, herr⟩ := getStatus_count_bound "trueColor" "S"
  obtain ⟨a, ha, -⟩ := hall
    ⟨1, [⟨⟨"ndvi"⟩, false, "zzz"⟩, ⟨⟨"trueColor"⟩, true, "abc123"⟩]⟩
    (by decide)
  exact ⟨herr, a, ha⟩

end AstroQuickStart
